import Mathlib

/-
Verification of the session-coordination layer of the deen-bridge SFU backend.

The development shallowly embeds the Entity Store (`RoomService`, src/unnamed/part_009),
the WebSocket handlers (`WebSocketService`, src/src/index.ts) and the best-effort
webhook/persistence policy (`WebhookService.sendWebhook`, src/src/services/redis.ts).

Modelling conventions:
  * A JS `Map<string, V>` is an insertion-ordered association list `SMap V`
    (`Map.set` updates in place or appends, `Map.delete` removes the entry,
    `Map.size` is the length, iteration follows list order).
  * Timestamps (`Date`, `Date.now()`) are integers (milliseconds).
  * Engine-assigned identifiers (uuidv4, mediasoup ids) are explicit parameters.
  * The media engine is opaque: its replies are parameters, and calls made to it
    (close / resume) are recorded in traces.
  * In JS the room's participant map and the service-global participant map hold
    references to the *same* `Participant` objects, so a field mutation is visible
    through both; the model makes this explicit by writing the updated record into
    both maps (`setParticipantBoth`).
-/

namespace SFU

/-- JS `Map<string, α>` as an insertion-ordered association list. -/
abbrev SMap (α : Type) := List (String × α)

/-- `Map.get`: value stored under the first occurrence of the key. -/
def SMap.get {α : Type} : SMap α → String → Option α
  | [], _ => none
  | e :: rest, k => if e.1 = k then some e.2 else SMap.get rest k

/-- `Map.set`: replace the entry for the key in place, or append a new one. -/
def SMap.set {α : Type} : SMap α → String → α → SMap α
  | [], k, v => [(k, v)]
  | e :: rest, k, v => if e.1 = k then (k, v) :: rest else e :: SMap.set rest k v

/-- Mutation of the object stored under a key: replace it if present, do nothing
if the key is absent (a JS object mutation never inserts into a map). -/
def SMap.setIfPresent {α : Type} : SMap α → String → α → SMap α
  | [], _, _ => []
  | e :: rest, k, v => if e.1 = k then (k, v) :: rest else e :: SMap.setIfPresent rest k v

/-- `Map.delete`: remove the entry for the key. -/
def SMap.erase {α : Type} : SMap α → String → SMap α
  | [], _ => []
  | e :: rest, k => if e.1 = k then rest else e :: SMap.erase rest k

/-- `Map.size`. -/
def SMap.size {α : Type} (m : SMap α) : Nat := m.length

/-- `Array.from(map.values())`. -/
def SMap.values {α : Type} (m : SMap α) : List α := m.map Prod.snd

/-- `Map.has`. -/
def SMap.contains {α : Type} (m : SMap α) (k : String) : Bool := (SMap.get m k).isSome

/-! ## Data model (src/unnamed/part_004, the `@/types` module)

`Date` values are integer millisecond timestamps.  RTP parameters, RTP
capabilities and `appData` are opaque to the coordination core and are carried
as plain strings / optional strings.  The engine-side handles (`producer`,
`consumer` objects) are represented by the identifiers the close/resume calls
are issued against; for consumers the engine handle's own paused flag is kept
as `handlePaused` (the `paused` field is the snapshot the store copies at
creation, exactly as the TS `ConsumerInfo.paused`). -/

/-- Media kind of a producer or consumer. -/
inductive MediaKind
  | audio
  | video
  deriving DecidableEq, Repr

/-- The slice of the arbitrary `metadata` record the core inspects:
`metadata?.['isHidden'] === true`.  `isHidden = none` models an absent field. -/
structure Metadata where
  isHidden : Option Bool := none
  deriving DecidableEq, Repr

/-- `metadata?.['isHidden'] === true` (part_009 line 162). -/
def metaIsHidden (md : Option Metadata) : Bool :=
  match md with
  | some m =>
    match m.isHidden with
    | some b => b
    | none => false
  | none => false

/-- `ProducerInfo` (part_004 lines 59-67); the engine handle is identified by `id`. -/
structure ProducerInfo where
  id : String
  kind : MediaKind
  rtpParameters : String
  appData : Option String
  paused : Bool
  deriving DecidableEq, Repr

/-- `ConsumerInfo` (part_004 lines 69-78).  `paused` is the snapshot stored by
`RoomService.createConsumer`; `handlePaused` is the engine handle's live flag
(`consumerInfo.consumer.paused`). -/
structure ConsumerInfo where
  id : String
  producerId : String
  kind : MediaKind
  rtpParameters : String
  appData : Option String
  paused : Bool
  handlePaused : Bool
  deriving DecidableEq, Repr

/-- `Participant` (part_004 lines 39-57).  The opaque `user` profile object is
omitted; transports are represented by their engine ids. -/
structure Participant where
  id : String
  userId : String
  roomId : String
  displayName : String
  isAudioEnabled : Bool := false
  isVideoEnabled : Bool := false
  isScreenSharing : Bool := false
  isHidden : Bool := false
  joinedAt : Int
  lastSeen : Int
  sendTransport : Option String := none
  recvTransport : Option String := none
  producers : SMap ProducerInfo := []
  consumers : SMap ConsumerInfo := []
  metadata : Option Metadata := none
  deriving DecidableEq, Repr

/-- `Room` (part_004 lines 26-37); the mediasoup router handle is its id. -/
structure Room where
  id : String
  name : String
  description : Option String := none
  maxParticipants : Nat
  isActive : Bool
  createdAt : Int
  updatedAt : Int
  participants : SMap Participant
  routerId : Option String
  instanceId : String
  deriving DecidableEq, Repr

/-- The two private maps of `RoomService` (part_009 lines 12-13). -/
structure RoomState where
  rooms : SMap Room := []
  participants : SMap Participant := []
  deriving DecidableEq, Repr

/-- The empty store a fresh `RoomService` starts with. -/
def RoomState.init : RoomState := {}

/-- Error codes raised by `RoomService` (src/src/utils/errors.ts codes used in part_009). -/
inductive RoomErr
  | roomNotFound
  | roomFull
  | participantNotFound
  | transportNotFound
  | routerNotFound
  | consumerCapabilitiesInvalid
  | internalError
  deriving DecidableEq, Repr

/-- A call issued against a media-engine handle (`<handle>.close()`). -/
inductive CloseCall
  | producer (id : String)
  | consumer (id : String)
  | transport (id : String)
  deriving DecidableEq, Repr

/-! ## Entity Store operations (`RoomService`, src/unnamed/part_009)

In JS the room's `participants` map and the service-global `participants` map
reference the same objects, so mutating a participant fetched from either map is
visible through both.  `setParticipantBoth` encodes that aliasing: it rewrites
the participant's entry in its room's map and in the global map (where present). -/

/-- Effect of mutating the `Participant` object stored under `pid`: both maps see it. -/
def setParticipantBoth (s : RoomState) (roomId pid : String) (p : Participant) : RoomState :=
  let rooms2 :=
    match SMap.get s.rooms roomId with
    | none => s.rooms
    | some room =>
      SMap.setIfPresent s.rooms roomId
        { room with participants := SMap.setIfPresent room.participants pid p }
  { s with rooms := rooms2, participants := SMap.setIfPresent s.participants pid p }

/-- `RoomService.createRoom` (part_009 lines 15-59).  `roomId` is the fresh uuid,
`routerId` the engine-assigned router handle; the engine call is assumed to
succeed (its failure path only rethrows as `internalError`). -/
def createRoom (s : RoomState) (name : String) (description : Option String)
    (maxParticipants : Nat) (roomId routerId : String) (now : Int) :
    RoomState × Room :=
  let room : Room :=
    { id := roomId
      name := name
      description := description
      maxParticipants := maxParticipants
      isActive := true
      createdAt := now
      updatedAt := now
      participants := []
      routerId := some routerId
      instanceId := "sfu-001" }
  ({ s with rooms := SMap.set s.rooms roomId room }, room)

instance {ε α : Type} [DecidableEq ε] [DecidableEq α] : DecidableEq (Except ε α) := fun a b =>
  match a, b with
  | .error e, .error f => if h : e = f then .isTrue (by simp [h]) else .isFalse (by simp [h])
  | .ok x, .ok y => if h : x = y then .isTrue (by simp [h]) else .isFalse (by simp [h])
  | .error _, .ok _ => .isFalse (by simp)
  | .ok _, .error _ => .isFalse (by simp)

/-- Result of `joinRoom`: the (possibly mutated) store and the returned
participant or the thrown error.  Mutations made before a throw persist. -/
structure JoinResult where
  state : RoomState
  result : Except RoomErr Participant
  deriving DecidableEq, Repr

/-- `joinRoom`, lines 108-128: look up the room, auto-creating it (capacity 100)
and re-keying it from its fresh uuid to the requested id when absent. -/
def joinAutoCreate (s : RoomState) (roomId freshRoomId freshRouterId : String)
    (now : Int) : RoomState × Room :=
  match SMap.get s.rooms roomId with
  | some r => (s, r)
  | none =>
    let pr := createRoom s ("Session Room " ++ roomId)
      (some ("Auto-created room for session " ++ roomId)) 100 freshRoomId freshRouterId now
    let moved := { pr.2 with id := roomId }
    ({ pr.1 with rooms := SMap.set (SMap.erase pr.1.rooms pr.2.id) roomId moved }, moved)

/-- `joinRoom`, lines 131-137: reactivate an inactive room (an in-place mutation
of the aliased room object). -/
def joinReactivate (sr : RoomState × Room) (roomId : String) : RoomState × Room :=
  if sr.2.isActive then sr
  else
    let room2 := { sr.2 with isActive := true }
    ({ sr.1 with rooms := SMap.setIfPresent sr.1.rooms roomId room2 }, room2)

/-- `joinRoom`, lines 139-203: the capacity check (line 139) happens **before**
the duplicate-participant check (line 144); then either the existing participant
is returned unchanged or a new one is constructed and inserted into both maps. -/
def joinInsert (sr : RoomState × Room) (roomId userId displayName : String)
    (metadata : Option Metadata) (freshPid : String) (now : Int) : JoinResult :=
  let s2 := sr.1
  let room2 := sr.2
  if room2.participants.size ≥ room2.maxParticipants then
    { state := s2, result := .error .roomFull }
  else
    match (SMap.values room2.participants).find? (fun p => p.userId == userId) with
    | some p => { state := s2, result := .ok p }
    | none =>
      let p : Participant :=
        { id := freshPid
          userId := userId
          roomId := roomId
          displayName := displayName
          isHidden := metaIsHidden metadata
          joinedAt := now
          lastSeen := now
          metadata := metadata }
      let room3 := { room2 with participants := SMap.set room2.participants freshPid p,
                                updatedAt := now }
      { state := { s2 with rooms := SMap.set s2.rooms roomId room3,
                           participants := SMap.set s2.participants freshPid p }
        result := .ok p }

/-- `RoomService.joinRoom` (part_009 lines 101-203), as the composition of its
three phases.  `freshRoomId`/`freshRouterId` are the uuids consumed if the room
is auto-created, `freshPid` the uuid for a newly inserted participant. -/
def joinRoom (s : RoomState) (roomId userId displayName : String)
    (metadata : Option Metadata) (freshRoomId freshRouterId freshPid : String)
    (now : Int) : JoinResult :=
  joinInsert (joinReactivate (joinAutoCreate s roomId freshRoomId freshRouterId now) roomId)
    roomId userId displayName metadata freshPid now

/-- Result of `leaveRoom`: store, trace of engine close calls, outcome. -/
structure LeaveResult where
  state : RoomState
  calls : List CloseCall
  result : Except RoomErr Unit
  deriving DecidableEq, Repr

/-- Close calls for an optional transport handle. -/
def optTransportClose (t : Option String) : List CloseCall :=
  match t with
  | some tid => [CloseCall.transport tid]
  | none => []

/-- `RoomService.leaveRoom` (part_009 lines 205-260). -/
def leaveRoom (s : RoomState) (roomId participantId : String) (now : Int) : LeaveResult :=
  match SMap.get s.rooms roomId with
  | none => { state := s, calls := [], result := .error .roomNotFound }
  | some room =>
    match SMap.get room.participants participantId with
    | none => { state := s, calls := [], result := .error .participantNotFound }
    | some p =>
      -- lines 217-233: one close per producer, consumer, and held transport
      let calls :=
        (SMap.values p.producers).map (fun pi => CloseCall.producer pi.id)
          ++ (SMap.values p.consumers).map (fun ci => CloseCall.consumer ci.id)
          ++ optTransportClose p.sendTransport
          ++ optTransportClose p.recvTransport
      -- lines 235-238: remove from both maps, touch updatedAt
      let parts2 := SMap.erase room.participants participantId
      -- lines 246-250: an emptied room is marked inactive, not deleted
      let room2 := { room with participants := parts2, updatedAt := now,
                               isActive := if parts2.length = 0 then false else room.isActive }
      { state := { s with rooms := SMap.set s.rooms roomId room2,
                          participants := SMap.erase s.participants participantId }
        calls := calls
        result := .ok () }

/-- Transport direction. -/
inductive Direction
  | send
  | recv
  deriving DecidableEq, Repr

/-- Result of `createTransport`. -/
structure TransportResult where
  state : RoomState
  result : Except RoomErr String
  deriving DecidableEq, Repr

/-- `RoomService.createTransport` (part_009 lines 292-342); `transportId` is the
engine-assigned id of the created WebRTC transport. -/
def createTransport (s : RoomState) (roomId participantId : String) (direction : Direction)
    (transportId : String) (now : Int) : TransportResult :=
  match SMap.get s.rooms roomId with
  | none => { state := s, result := .error .roomNotFound }
  | some room =>
    match SMap.get room.participants participantId with
    | none => { state := s, result := .error .participantNotFound }
    | some p =>
      match room.routerId with
      | none => { state := s, result := .error .routerNotFound }
      | some _ =>
        let p2 :=
          match direction with
          | .send => { p with sendTransport := some transportId, lastSeen := now }
          | .recv => { p with recvTransport := some transportId, lastSeen := now }
        { state := setParticipantBoth s roomId participantId p2, result := .ok transportId }

/-- Engine reply to `mediasoupService.createProducer`. -/
structure EngineProducerReply where
  id : String
  paused : Bool
  deriving DecidableEq, Repr

/-- Result of `createProducer`. -/
structure ProducerResult where
  state : RoomState
  result : Except RoomErr ProducerInfo
  deriving DecidableEq, Repr

/-- `RoomService.createProducer` (part_009 lines 344-407). -/
def createProducer (s : RoomState) (roomId participantId : String) (kind : MediaKind)
    (rtpParameters : String) (appData : Option String) (reply : EngineProducerReply)
    (now : Int) : ProducerResult :=
  match SMap.get s.rooms roomId with
  | none => { state := s, result := .error .roomNotFound }
  | some room =>
    match SMap.get room.participants participantId with
    | none => { state := s, result := .error .participantNotFound }
    | some p =>
      match p.sendTransport with
      | none => { state := s, result := .error .transportNotFound }
      | some _ =>
        let pi : ProducerInfo :=
          { id := reply.id, kind := kind, rtpParameters := rtpParameters,
            appData := appData, paused := reply.paused }
        -- lines 382-390: store the producer, then flip the matching enabled flag
        let p2 := { p with
          producers := SMap.set p.producers reply.id pi
          lastSeen := now
          isAudioEnabled := if kind = MediaKind.audio then true else p.isAudioEnabled
          isVideoEnabled := if kind = MediaKind.video then true else p.isVideoEnabled }
        { state := setParticipantBoth s roomId participantId p2, result := .ok pi }

/-- Engine reply to `mediasoupService.createConsumer`; the consumer is created
with `paused: true` (src/src/services/mediasoup.ts line 255), so the returned
handle reports itself paused. -/
structure EngineConsumerReply where
  id : String
  kind : MediaKind
  rtpParameters : String
  deriving DecidableEq, Repr

/-- Result of `createConsumer`. -/
structure ConsumerResult where
  state : RoomState
  result : Except RoomErr ConsumerInfo
  deriving DecidableEq, Repr

/-- `RoomService.createConsumer` (part_009 lines 409-479).  `canConsume` is the
engine's `router.canConsume` verdict. -/
def createConsumer (s : RoomState) (roomId participantId producerId : String)
    (rtpCapabilities : String) (appData : Option String) (canConsume : Bool)
    (reply : EngineConsumerReply) (now : Int) : ConsumerResult :=
  match SMap.get s.rooms roomId with
  | none => { state := s, result := .error .roomNotFound }
  | some room =>
    match SMap.get room.participants participantId with
    | none => { state := s, result := .error .participantNotFound }
    | some p =>
      match p.recvTransport with
      | none => { state := s, result := .error .transportNotFound }
      | some _ =>
        match room.routerId with
        | none => { state := s, result := .error .routerNotFound }
        | some _ =>
          if !canConsume then
            { state := s, result := .error .consumerCapabilitiesInvalid }
          else
            let ci : ConsumerInfo :=
              { id := reply.id, producerId := producerId, kind := reply.kind,
                rtpParameters := reply.rtpParameters, appData := appData,
                paused := true, handlePaused := true }
            let p2 := { p with consumers := SMap.set p.consumers reply.id ci, lastSeen := now }
            { state := setParticipantBoth s roomId participantId p2, result := .ok ci }

/-- `RoomService.getParticipant` (part_009 lines 262-264): global map lookup. -/
def getParticipant (s : RoomState) (participantId : String) : Option Participant :=
  SMap.get s.participants participantId

/-- `RoomService.getProducerInfo` (part_009 lines 274-283): scan all participants. -/
def getProducerInfo (s : RoomState) (producerId : String) : Option ProducerInfo :=
  (SMap.values s.participants).findSome? (fun p => SMap.get p.producers producerId)

/-- `RoomService.getRoomParticipants` (part_009 lines 285-290). -/
def getRoomParticipants (s : RoomState) (roomId : String) : List Participant :=
  match SMap.get s.rooms roomId with
  | none => []
  | some room => SMap.values room.participants

/-- The wire-visible participant record (part_004 lines 178-188). -/
structure ParticipantInfo where
  id : String
  userId : String
  displayName : String
  isAudioEnabled : Bool
  isVideoEnabled : Bool
  isScreenSharing : Bool
  isHidden : Bool
  joinedAt : Int
  metadata : Option Metadata
  deriving DecidableEq, Repr

/-- `RoomService.getParticipantInfo` (part_009 lines 494-506). -/
def getParticipantInfo (p : Participant) : ParticipantInfo :=
  { id := p.id
    userId := p.userId
    displayName := p.displayName
    isAudioEnabled := p.isAudioEnabled
    isVideoEnabled := p.isVideoEnabled
    isScreenSharing := p.isScreenSharing
    isHidden := p.isHidden
    joinedAt := p.joinedAt
    metadata := p.metadata }

/-- Result of `deleteRoom`. -/
structure DeleteResult where
  state : RoomState
  result : Except RoomErr Unit
  deriving DecidableEq, Repr

/-- `RoomService.deleteRoom` (part_009 lines 69-99): leave every participant,
close the router, drop the room. -/
def deleteRoom (s : RoomState) (roomId : String) (now : Int) : DeleteResult :=
  match SMap.get s.rooms roomId with
  | none => { state := s, result := .error .roomNotFound }
  | some room =>
    let pids := (SMap.values room.participants).map (fun p => p.id)
    let s1 := pids.foldl (fun acc pid => (leaveRoom acc roomId pid now).state) s
    { state := { s1 with rooms := SMap.erase s1.rooms roomId }, result := .ok () }

/-- `RoomService.cleanupInactiveRooms` (part_009 lines 523-545). -/
def cleanupInactiveRooms (s : RoomState) (now idleTimeout : Int) : RoomState :=
  let stale := (s.rooms.filter
    (fun e => e.2.participants.size = 0 && decide (now - e.2.updatedAt > idleTimeout))).map Prod.fst
  stale.foldl (fun acc rid => (deleteRoom acc rid now).state) s

/-! ## Message handlers (`WebSocketService`, src/src/index.ts) and the
best-effort persistence / webhook policy (src/src/services/redis.ts) -/

/-- Handler-level error codes (src/src/utils/errors.ts codes used by index.ts). -/
inductive HErr
  | roomAccessDenied
  | participantNotInRoom
  | participantNotFound
  | producerNotFound
  | consumerNotFound
  | djangoWebhookError
  | roomErr (e : RoomErr)
  deriving DecidableEq, Repr

/-- `WebhookService.sendWebhook` (src/src/services/redis.ts lines 466-497):
skipped entirely in development mode; otherwise a delivery failure (after the
retry loop) is logged and **rethrown** as `DJANGO_WEBHOOK_ERROR`. -/
def sendWebhookCall (devMode deliveryOk : Bool) : Except HErr Unit :=
  if devMode then .ok ()
  else if deliveryOk then .ok ()
  else .error .djangoWebhookError

/-- A room-scoped event emitted through `broadcastToRoom`; delivery fans out to
every connection of the room except `excludeConn`. -/
inductive BroadcastMsg
  | participantJoined (roomId : String) (info : ParticipantInfo) (excludeConn : String)
  | participantLeft (roomId participantId excludeConn : String)
  | producerClosed (roomId participantId producerId excludeConn : String)
  deriving DecidableEq, Repr

/-- Response body of `createRoom` (index.ts lines 736-741). -/
structure CreateRoomResponse where
  roomId : String
  name : String
  description : Option String
  maxParticipants : Nat
  deriving DecidableEq, Repr

/-- Outcome of `handleCreateRoom`: store, response or error, warning logs. -/
structure CreateRoomOutcome where
  state : RoomState
  result : Except HErr CreateRoomResponse
  warnLogs : List String
  deriving DecidableEq, Repr

/-- `WebSocketService.handleCreateRoom` (index.ts lines 693-742).  `dbOk` is
whether the best-effort `databaseService.logRoomEvent` call succeeds (its
failure is caught and only logged), `devMode`/`webhookOk` drive the webhook. -/
def handleCreateRoom (s : RoomState) (name : String) (description : Option String)
    (maxParticipants : Nat) (roomId routerId : String) (now : Int)
    (dbOk devMode webhookOk : Bool) : CreateRoomOutcome :=
  let pr := createRoom s name description maxParticipants roomId routerId now
  let warnLogs := if dbOk then [] else ["Failed to log room creation event"]
  match sendWebhookCall devMode webhookOk with
  | .error e => { state := pr.1, result := .error e, warnLogs := warnLogs }
  | .ok _ =>
    { state := pr.1
      result := .ok { roomId := pr.2.id, name := pr.2.name,
                      description := pr.2.description, maxParticipants := pr.2.maxParticipants }
      warnLogs := warnLogs }

/-- One element of the roster returned by `joinRoom` (index.ts lines 804-813):
the participant info extended with its producers' summaries. -/
structure RosterEntry where
  info : ParticipantInfo
  producers : List (String × MediaKind × Bool)
  deriving DecidableEq, Repr

/-- Build a roster entry from a participant (index.ts lines 804-813). -/
def rosterEntry (p : Participant) : RosterEntry :=
  { info := getParticipantInfo p
    producers := (SMap.values p.producers).map (fun pi => (pi.id, pi.kind, pi.paused)) }

/-- Response body of `joinRoom` (index.ts lines 872-876); the router RTP
capability descriptor is opaque and identified by the router id. -/
structure JoinResponse where
  roomId : String
  participants : List RosterEntry
  routerRtpCapabilities : String
  deriving DecidableEq, Repr

/-- `RoomService.getRouterRtpCapabilities` (part_009 lines 481-492). -/
def getRouterRtpCaps (s : RoomState) (roomId : String) : Except RoomErr String :=
  match SMap.get s.rooms roomId with
  | none => .error .roomNotFound
  | some room =>
    match room.routerId with
    | none => .error .routerNotFound
    | some rid => .ok rid

/-- Outcome of `handleJoinRoom`.  `joined` exposes the handler's `participant`
local for stating visibility properties. -/
structure JoinOutcome where
  state : RoomState
  result : Except HErr JoinResponse
  broadcasts : List BroadcastMsg
  warnLogs : List String
  joined : Option Participant
  deriving DecidableEq, Repr

/-- `WebSocketService.handleJoinRoom` (index.ts lines 744-887).
`hasAccess` is `authService.validateRoomAccess`'s verdict, `now` the time used
when joining (and hence `joinedAt` for a new participant), `tBroadcast` the
`Date.now()` sampled at the duplicate-join heuristic (line 859). -/
def handleJoinRoom (s : RoomState) (connId connUserId : String)
    (roomId displayName : String) (metadata : Option Metadata) (hasAccess : Bool)
    (freshRoomId freshRouterId freshPid : String) (now : Int)
    (dbOk devMode webhookOk : Bool) (tBroadcast : Int) : JoinOutcome :=
  if !hasAccess then
    { state := s, result := .error .roomAccessDenied, broadcasts := [], warnLogs := [],
      joined := none }
  else
    let jr := joinRoom s roomId connUserId displayName metadata freshRoomId freshRouterId
      freshPid now
    match jr.result with
    | .error e =>
      { state := jr.state, result := .error (.roomErr e), broadcasts := [], warnLogs := [],
        joined := none }
    | .ok participant =>
      -- lines 794-813: roster with the hidden/observer visibility rule
      let parts := getRoomParticipants jr.state roomId
      let isObserver := participant.isHidden
      let visible := if isObserver then parts else parts.filter (fun p => !p.isHidden)
      let roster := visible.map rosterEntry
      -- lines 829-846: best-effort event logging, failure caught and logged
      let warnLogs := if dbOk then [] else ["Failed to log participant join event"]
      -- lines 849-855: webhook, NOT wrapped in try/catch
      match sendWebhookCall devMode webhookOk with
      | .error e =>
        { state := jr.state, result := .error e, broadcasts := [], warnLogs := warnLogs,
          joined := some participant }
      | .ok _ =>
        -- lines 857-868: broadcast unless a duplicate join (timestamp heuristic)
        -- or a hidden joiner
        let isNew := participant.joinedAt > tBroadcast - 1000
        let bcasts :=
          if isNew && !participant.isHidden then
            [BroadcastMsg.participantJoined roomId (getParticipantInfo participant) connId]
          else []
        match getRouterRtpCaps jr.state roomId with
        | .error e =>
          { state := jr.state, result := .error (.roomErr e), broadcasts := bcasts,
            warnLogs := warnLogs, joined := some participant }
        | .ok caps =>
          { state := jr.state
            result := .ok { roomId := roomId, participants := roster,
                            routerRtpCapabilities := caps }
            broadcasts := bcasts
            warnLogs := warnLogs
            joined := some participant }

/-- Outcome of `handleLeaveRoom`. -/
structure LeaveOutcome where
  state : RoomState
  result : Except HErr Bool
  broadcasts : List BroadcastMsg
  closeCalls : List CloseCall
  warnLogs : List String
  deriving DecidableEq, Repr

/-- `WebSocketService.handleLeaveRoom` (index.ts lines 889-952).  `connPid` and
`connRoomId` are the connection's current association. -/
def handleLeaveRoom (s : RoomState) (connId : String) (connPid connRoomId : Option String)
    (reqRoomId : String) (now : Int) (dbOk devMode webhookOk : Bool) : LeaveOutcome :=
  match connPid, connRoomId with
  | some pid, some _ =>
    match getParticipant s pid with
    | none =>
      { state := s, result := .error .participantNotFound, broadcasts := [], closeCalls := [],
        warnLogs := [] }
    | some _ =>
      -- lines 902-919: best-effort event logging, failure caught and logged
      let warnLogs := if dbOk then [] else ["Failed to log participant leave event"]
      -- lines 922-927: webhook, NOT wrapped in try/catch
      match sendWebhookCall devMode webhookOk with
      | .error e =>
        { state := s, result := .error e, broadcasts := [], closeCalls := [],
          warnLogs := warnLogs }
      | .ok _ =>
        -- lines 930-936: broadcast before the store mutation
        let bcast := [BroadcastMsg.participantLeft reqRoomId pid connId]
        let lr := leaveRoom s reqRoomId pid now
        match lr.result with
        | .error e =>
          { state := lr.state, result := .error (.roomErr e), broadcasts := bcast,
            closeCalls := lr.calls, warnLogs := warnLogs }
        | .ok _ =>
          { state := lr.state, result := .ok true, broadcasts := bcast,
            closeCalls := lr.calls, warnLogs := warnLogs }
  | _, _ =>
    { state := s, result := .error .participantNotInRoom, broadcasts := [], closeCalls := [],
      warnLogs := [] }

/-- Response body of `subscribe` (index.ts lines 1182-1189). -/
structure SubscribeResponse where
  consumerId : String
  producerId : String
  kind : MediaKind
  rtpParameters : String
  paused : Bool
  appData : Option String
  deriving DecidableEq, Repr

/-- Outcome of `handleSubscribe`; `resumeCalls` records the consumer handles the
handler issued an engine `resume()` against. -/
structure SubscribeOutcome where
  state : RoomState
  result : Except HErr SubscribeResponse
  resumeCalls : List String
  deriving DecidableEq, Repr

/-- `producerInfo?.appData` (index.ts line 1165): the appData the subscribe
handler recovers from the producer it subscribes to. -/
def producerAppData (s : RoomState) (producerId : String) : Option String :=
  match getProducerInfo s producerId with
  | some i => i.appData
  | none => none

/-- `WebSocketService.handleSubscribe` (index.ts lines 1147-1190). -/
def handleSubscribe (s : RoomState) (connPid connRoomId : Option String)
    (reqRoomId producerId : String) (rtpCapabilities : String) (canConsume : Bool)
    (reply : EngineConsumerReply) (now : Int) : SubscribeOutcome :=
  match connPid, connRoomId with
  | some pid, some _ =>
    -- lines 1154-1165: recover the producer's appData for the consumer
    let cr := createConsumer s reqRoomId pid producerId rtpCapabilities
      (producerAppData s producerId) canConsume reply now
    match cr.result with
    | .error e => { state := cr.state, result := .error (.roomErr e), resumeCalls := [] }
    | .ok ci =>
      let resp : SubscribeResponse :=
        { consumerId := ci.id, producerId := ci.producerId, kind := ci.kind,
          rtpParameters := ci.rtpParameters, paused := false, appData := ci.appData }
      -- lines 1168-1180: auto-resume the consumer on the server before replying
      match getParticipant cr.state pid with
      | none => { state := cr.state, result := .ok resp, resumeCalls := [] }
      | some part =>
        match SMap.get part.consumers ci.id with
        | none => { state := cr.state, result := .ok resp, resumeCalls := [] }
        | some cInfo =>
          if cInfo.handlePaused then
            let c2 := { cInfo with handlePaused := false }
            let part2 := { part with consumers := SMap.setIfPresent part.consumers ci.id c2 }
            { state := setParticipantBoth cr.state part.roomId pid part2,
              result := .ok resp, resumeCalls := [ci.id] }
          else
            { state := cr.state, result := .ok resp, resumeCalls := [] }
  | _, _ => { state := s, result := .error .participantNotInRoom, resumeCalls := [] }

/-- Outcome of `handleUnpublish`. -/
structure UnpublishOutcome where
  state : RoomState
  result : Except HErr Bool
  closeCalls : List CloseCall
  broadcasts : List BroadcastMsg
  deriving DecidableEq, Repr

/-- `WebSocketService.handleUnpublish` (index.ts lines 1114-1145): close the
producer handle, drop it from the participant's map, broadcast `producerClosed`.
The participant's enabled flags are not touched. -/
def handleUnpublish (s : RoomState) (connId : String) (connPid connRoomId : Option String)
    (reqRoomId producerId : String) : UnpublishOutcome :=
  match connPid, connRoomId with
  | some pid, some _ =>
    match getParticipant s pid with
    | none => { state := s, result := .error .participantNotFound, closeCalls := [],
                broadcasts := [] }
    | some p =>
      match SMap.get p.producers producerId with
      | none => { state := s, result := .error .producerNotFound, closeCalls := [],
                  broadcasts := [] }
      | some prodInfo =>
        let p2 := { p with producers := SMap.erase p.producers producerId }
        { state := setParticipantBoth s p.roomId pid p2
          result := .ok true
          closeCalls := [CloseCall.producer prodInfo.id]
          broadcasts := [BroadcastMsg.producerClosed reqRoomId pid producerId connId] }
  | _, _ =>
    { state := s, result := .error .participantNotInRoom, closeCalls := [], broadcasts := [] }

/-! ## Heartbeat sweep (`WebSocketService.pingConnections`, index.ts lines 458-481,
and the pong handler, lines 588-590) -/

/-- The liveness-relevant slice of a registered `WebSocketConnection`:
`lastPing` and whether the socket's `readyState` is OPEN. -/
structure HConn where
  id : String
  lastPing : Int
  wsOpen : Bool
  deriving DecidableEq, Repr

/-- One connection's fate in a sweep (index.ts lines 469-480): close (remove)
when `now - lastPing > 60000`; otherwise, if the socket is OPEN, send a ping
**and set `lastPing = now`** (line 478). -/
def sweepConn (now : Int) (c : HConn) : Option HConn :=
  if now - c.lastPing > 60000 then none
  else if c.wsOpen then some { c with lastPing := now } else some c

/-- `pingConnections`: apply the sweep to every registered connection. -/
def pingSweep (now : Int) (conns : List HConn) : List HConn :=
  conns.filterMap (sweepConn now)

/-- The pong handler (index.ts lines 588-590): acknowledgment refreshes `lastPing`. -/
def onPong (now : Int) (c : HConn) : HConn :=
  { c with lastPing := now }

/-- Registered connections after `n` sweeps run on the 30-second interval
(index.ts lines 458-463), starting from registration at time `start`, when no
pong is ever received. -/
def runSweeps (start : Int) (conns : List HConn) : Nat → List HConn
  | 0 => conns
  | n + 1 => pingSweep (start + 30000 * (n + 1)) (runSweeps start conns n)

/-! ## The Entity Store as a transition system

Every mutating `RoomService` operation, with its nondeterministic inputs
(fresh uuids, engine replies, clock readings) made explicit. -/

/-- One Entity Store operation. -/
inductive Op
  | createRoomOp (name : String) (description : Option String) (maxParticipants : Nat)
      (roomId routerId : String) (now : Int)
  | joinRoomOp (roomId userId displayName : String) (metadata : Option Metadata)
      (freshRoomId freshRouterId freshPid : String) (now : Int)
  | leaveRoomOp (roomId participantId : String) (now : Int)
  | createTransportOp (roomId participantId : String) (direction : Direction)
      (transportId : String) (now : Int)
  | createProducerOp (roomId participantId : String) (kind : MediaKind)
      (rtpParameters : String) (appData : Option String) (reply : EngineProducerReply)
      (now : Int)
  | createConsumerOp (roomId participantId producerId : String) (rtpCapabilities : String)
      (appData : Option String) (canConsume : Bool) (reply : EngineConsumerReply) (now : Int)
  | deleteRoomOp (roomId : String) (now : Int)
  | cleanupOp (now idleTimeout : Int)

/-- Effect of an operation on the store (a thrown error leaves whatever
mutations already happened in place, as in the source). -/
def applyOp (s : RoomState) : Op → RoomState
  | .createRoomOp name desc maxP roomId routerId now =>
    (createRoom s name desc maxP roomId routerId now).1
  | .joinRoomOp roomId userId dn md frid frr fpid now =>
    (joinRoom s roomId userId dn md frid frr fpid now).state
  | .leaveRoomOp roomId pid now => (leaveRoom s roomId pid now).state
  | .createTransportOp roomId pid dir tid now =>
    (createTransport s roomId pid dir tid now).state
  | .createProducerOp roomId pid kind rtp ad reply now =>
    (createProducer s roomId pid kind rtp ad reply now).state
  | .createConsumerOp roomId pid prodId caps ad cc reply now =>
    (createConsumer s roomId pid prodId caps ad cc reply now).state
  | .deleteRoomOp roomId now => (deleteRoom s roomId now).state
  | .cleanupOp now idle => cleanupInactiveRooms s now idle

/-- Capacity invariant on a room map: no room holds more participants than its
configured capacity. -/
def CapInvM (m : SMap Room) : Prop :=
  ∀ e ∈ m, (e.2.participants).size ≤ e.2.maxParticipants

/-- Capacity invariant on the whole store. -/
def CapInv (s : RoomState) : Prop := CapInvM s.rooms

/-! ## Concrete scenarios (fixed uuids and clock readings) used to evaluate the model -/

/-- A store holding the explicitly created room "room1" with capacity 1
(the spec scenario `createRoom {maxParticipants}` with a small capacity). -/
def demoRoom1 : RoomState := (createRoom RoomState.init "Test" none 1 "room1" "router1" 0).1

/-- Alice joins the capacity-1 room "room1". -/
def demoRoom1Alice : JoinResult :=
  joinRoom demoRoom1 "room1" "alice" "Alice" none "fr1" "frr1" "p1" 0

/-- Alice re-sends the join for the now-full capacity-1 room. -/
def demoRoom1AliceAgain : JoinResult :=
  joinRoom demoRoom1Alice.state "room1" "alice" "Alice" none "fr2" "frr2" "p2" 5

/-- A store where alice joined the auto-created room "room1" (capacity 100). -/
def demoAlice : RoomState :=
  (joinRoom RoomState.init "room1" "alice" "Alice" none "fr0" "frr0" "p1" 0).state

/-- Alice additionally holds a send transport "t1" and a recv transport "t2". -/
def demoAliceTrans : RoomState :=
  (createTransport (createTransport demoAlice "room1" "p1" .send "t1" 1).state
    "room1" "p1" .recv "t2" 1).state

/-- Alice has published the audio producer "prod1". -/
def demoAliceProducer : ProducerResult :=
  createProducer demoAliceTrans "room1" "p1" .audio "rtp1" none { id := "prod1", paused := false } 2

/-- Alice unpublishes "prod1" again. -/
def demoAliceUnpublish : UnpublishOutcome :=
  handleUnpublish demoAliceProducer.state "connA" (some "p1") (some "room1") "room1" "prod1"

/-- Alice subscribes (in the producer state) to "prod1" through her recv transport. -/
def demoSubscribe : SubscribeOutcome :=
  handleSubscribe demoAliceProducer.state (some "p1") (some "room1") "room1" "prod1" "caps"
    true { id := "c1", kind := .audio, rtpParameters := "rp1" } 3

/-- First `joinRoom` handler run for (roomX, alice), at time 0. -/
def joinDemo1 : JoinOutcome :=
  handleJoinRoom RoomState.init "connA" "alice" "roomX" "Alice" none true "fr1" "frr1" "p1" 0
    true true true 0

/-- The same user's second `joinRoom` request, handled 500 ms after the first. -/
def joinDemo2 : JoinOutcome :=
  handleJoinRoom joinDemo1.state "connA" "alice" "roomX" "Alice" none true "fr2" "frr2" "p2" 500
    true true true 500

/-- A `joinRoom` handler run outside development mode whose webhook delivery fails
(`dbOk = true`, `devMode = false`, `webhookOk = false`). -/
def joinWebhookFailDemo : JoinOutcome :=
  handleJoinRoom RoomState.init "connA" "alice" "room1" "Alice" none true "fr1" "frr1" "p1" 0
    true false false 0

/-- Hidden observer bob joins the room already containing alice. -/
def joinHiddenDemo : JoinOutcome :=
  handleJoinRoom demoAlice "connB" "bob" "room1" "Bob" (some { isHidden := some true }) true
    "fr2" "frr2" "p2" 10 true true true 10

/-! ## Association-map lemmas -/

theorem SMap.get_set_self {α : Type} (m : SMap α) (k : String) (v : α) :
    SMap.get (SMap.set m k v) k = some v := by
  induction m with
  | nil => simp [SMap.set, SMap.get]
  | cons e rest ih =>
    by_cases h : e.1 = k
    · simp [SMap.set, SMap.get, h]
    · simp [SMap.set, SMap.get, h, ih]

theorem SMap.get_set_ne {α : Type} (m : SMap α) {k k' : String} (v : α) (h : k' ≠ k) :
    SMap.get (SMap.set m k v) k' = SMap.get m k' := by
  have hkk : ¬ (k = k') := fun hh => h hh.symm
  induction m with
  | nil => simp [SMap.set, SMap.get, hkk]
  | cons e rest ih =>
    by_cases he : e.1 = k
    · simp [SMap.set, SMap.get, he, hkk]
    · simp [SMap.set, SMap.get, he, ih]

theorem SMap.get_setIfPresent_self {α : Type} (m : SMap α) (k : String) (v w : α)
    (h : SMap.get m k = some w) :
    SMap.get (SMap.setIfPresent m k v) k = some v := by
  induction m with
  | nil => simp [SMap.get] at h
  | cons e rest ih =>
    by_cases he : e.1 = k
    · simp [SMap.setIfPresent, SMap.get, he]
    · simp [SMap.get, he] at h
      simp [SMap.setIfPresent, SMap.get, he, ih h]

theorem SMap.get_setIfPresent_ne {α : Type} (m : SMap α) {k k' : String} (v : α) (h : k' ≠ k) :
    SMap.get (SMap.setIfPresent m k v) k' = SMap.get m k' := by
  have hkk : ¬ (k = k') := fun hh => h hh.symm
  induction m with
  | nil => simp [SMap.setIfPresent]
  | cons e rest ih =>
    by_cases he : e.1 = k
    · simp [SMap.setIfPresent, SMap.get, he, hkk]
    · simp [SMap.setIfPresent, SMap.get, he, ih]

theorem SMap.mem_set {α : Type} {m : SMap α} {k : String} {v : α} {e : String × α}
    (he : e ∈ SMap.set m k v) : e = (k, v) ∨ e ∈ m := by
  induction m with
  | nil => simpa [SMap.set] using he
  | cons f rest ih =>
    by_cases hf : f.1 = k
    · simp [SMap.set, hf] at he
      rcases he with h | h
      · exact Or.inl h
      · exact Or.inr (List.mem_cons_of_mem _ h)
    · simp [SMap.set, hf] at he
      rcases he with h | h
      · exact Or.inr (by simp [h])
      · rcases ih h with h' | h'
        · exact Or.inl h'
        · exact Or.inr (List.mem_cons_of_mem _ h')

theorem SMap.mem_setIfPresent {α : Type} {m : SMap α} {k : String} {v : α} {e : String × α}
    (he : e ∈ SMap.setIfPresent m k v) : e = (k, v) ∨ e ∈ m := by
  induction m with
  | nil => simp [SMap.setIfPresent] at he
  | cons f rest ih =>
    by_cases hf : f.1 = k
    · simp [SMap.setIfPresent, hf] at he
      rcases he with h | h
      · exact Or.inl h
      · exact Or.inr (List.mem_cons_of_mem _ h)
    · simp [SMap.setIfPresent, hf] at he
      rcases he with h | h
      · exact Or.inr (by simp [h])
      · rcases ih h with h' | h'
        · exact Or.inl h'
        · exact Or.inr (List.mem_cons_of_mem _ h')

theorem SMap.mem_of_mem_erase {α : Type} {m : SMap α} {k : String} {e : String × α}
    (he : e ∈ SMap.erase m k) : e ∈ m := by
  induction m with
  | nil => simp [SMap.erase] at he
  | cons f rest ih =>
    by_cases hf : f.1 = k
    · simp [SMap.erase, hf] at he
      exact List.mem_cons_of_mem _ he
    · simp [SMap.erase, hf] at he
      rcases he with h | h
      · simp [h]
      · exact List.mem_cons_of_mem _ (ih h)

theorem SMap.length_set_le {α : Type} (m : SMap α) (k : String) (v : α) :
    (SMap.set m k v).length ≤ m.length + 1 := by
  induction m with
  | nil => simp [SMap.set]
  | cons f rest ih =>
    by_cases hf : f.1 = k
    · simp [SMap.set, hf]
    · simp [SMap.set, hf]
      omega

theorem SMap.length_setIfPresent {α : Type} (m : SMap α) (k : String) (v : α) :
    (SMap.setIfPresent m k v).length = m.length := by
  induction m with
  | nil => simp [SMap.setIfPresent]
  | cons f rest ih =>
    by_cases hf : f.1 = k
    · simp [SMap.setIfPresent, hf]
    · simp [SMap.setIfPresent, hf, ih]

theorem SMap.length_erase_le {α : Type} (m : SMap α) (k : String) :
    (SMap.erase m k).length ≤ m.length := by
  induction m with
  | nil => simp [SMap.erase]
  | cons f rest ih =>
    by_cases hf : f.1 = k
    · simp [SMap.erase, hf]
    · simp [SMap.erase, hf]
      omega

theorem SMap.mem_of_get_eq_some {α : Type} {m : SMap α} {k : String} {v : α}
    (h : SMap.get m k = some v) : (k, v) ∈ m := by
  induction m with
  | nil => simp [SMap.get] at h
  | cons e rest ih =>
    by_cases he : e.1 = k
    · simp only [SMap.get, if_pos he] at h
      have hev : e = (k, v) := by
        cases e with
        | mk a b =>
          simp only at he
          simp only [Option.some.injEq] at h
          simp [he, h]
      simp [hev]
    · simp only [SMap.get, if_neg he] at h
      exact List.mem_cons_of_mem _ (ih h)

theorem SMap.mem_erase_iff {α : Type} {m : SMap α} {k : String}
    (hnd : (m.map Prod.fst).Nodup) (e : String × α) :
    e ∈ SMap.erase m k ↔ e ∈ m ∧ e.1 ≠ k := by
  induction m with
  | nil => simp [SMap.erase]
  | cons f rest ih =>
    simp only [List.map_cons, List.nodup_cons] at hnd
    by_cases hf : f.1 = k
    · subst hf
      simp only [SMap.erase, if_pos rfl]
      constructor
      · intro he
        refine ⟨List.mem_cons_of_mem _ he, ?_⟩
        intro hk
        exact hnd.1 (by simpa [hk] using List.mem_map_of_mem Prod.fst he)
      · rintro ⟨he, hk⟩
        rcases List.mem_cons.mp he with h | h
        · exact absurd (by simp [h]) hk
        · exact h
    · simp only [SMap.erase, if_neg hf]
      constructor
      · intro he
        rcases List.mem_cons.mp he with h | h
        · exact ⟨by simp [h], by simp [h, hf]⟩
        · rcases (ih hnd.2 ).mp h with ⟨h1, h2⟩
          exact ⟨List.mem_cons_of_mem _ h1, h2⟩
      · rintro ⟨he, hk⟩
        rcases List.mem_cons.mp he with h | h
        · simp [h]
        · exact List.mem_cons_of_mem _ ((ih hnd.2 ).mpr ⟨h, hk⟩)

theorem SMap.set_of_get_eq_none {α : Type} {m : SMap α} {k : String} (v : α)
    (h : SMap.get m k = none) : SMap.set m k v = m ++ [(k, v)] := by
  induction m with
  | nil => simp [SMap.set]
  | cons e rest ih =>
    by_cases he : e.1 = k
    · simp [SMap.get, he] at h
    · simp [SMap.get, he] at h
      simp [SMap.set, he, ih h]

theorem SMap.erase_set_of_get_eq_none {α : Type} {m : SMap α} {k : String} (v : α)
    (h : SMap.get m k = none) : SMap.erase (SMap.set m k v) k = m := by
  induction m with
  | nil => simp [SMap.set, SMap.erase]
  | cons e rest ih =>
    by_cases he : e.1 = k
    · simp [SMap.get, he] at h
    · simp [SMap.get, he] at h
      simp [SMap.set, SMap.erase, he, ih h]

theorem capInvM_set {m : SMap Room} {k : String} {r : Room}
    (hm : CapInvM m) (hr : r.participants.size ≤ r.maxParticipants) :
    CapInvM (SMap.set m k r) := by
  intro e he
  rcases SMap.mem_set he with h | h
  · simpa [h] using hr
  · exact hm e h

theorem capInvM_setIfPresent {m : SMap Room} {k : String} {r : Room}
    (hm : CapInvM m) (hr : r.participants.size ≤ r.maxParticipants) :
    CapInvM (SMap.setIfPresent m k r) := by
  intro e he
  rcases SMap.mem_setIfPresent he with h | h
  · simpa [h] using hr
  · exact hm e h

theorem capInvM_erase {m : SMap Room} {k : String} (hm : CapInvM m) :
    CapInvM (SMap.erase m k) :=
  fun e he => hm e (SMap.mem_of_mem_erase he)

theorem capInvM_bound_of_get {m : SMap Room} {k : String} {r : Room}
    (hm : CapInvM m) (h : SMap.get m k = some r) :
    r.participants.size ≤ r.maxParticipants :=
  hm (k, r) (SMap.mem_of_get_eq_some h)

theorem capInv_setParticipantBoth {s : RoomState} (roomId pid : String) (p : Participant)
    (h : CapInv s) : CapInv (setParticipantBoth s roomId pid p) := by
  unfold CapInv setParticipantBoth
  cases hr : SMap.get s.rooms roomId with
  | none => simpa [hr] using h
  | some room =>
    simp only [hr]
    apply capInvM_setIfPresent h
    have := capInvM_bound_of_get h hr
    simpa [SMap.size, SMap.length_setIfPresent] using this

theorem capInv_createRoom (s : RoomState) (name : String) (desc : Option String)
    (maxP : Nat) (roomId routerId : String) (now : Int) (h : CapInv s) :
    CapInv (createRoom s name desc maxP roomId routerId now).1 := by
  unfold CapInv createRoom
  exact capInvM_set h (by simp [SMap.size])

theorem capInv_joinAutoCreate {s : RoomState} (roomId frid frr : String) (now : Int)
    (h : CapInv s) :
    CapInvM (joinAutoCreate s roomId frid frr now).1.rooms ∧
      (joinAutoCreate s roomId frid frr now).2.participants.size ≤
        (joinAutoCreate s roomId frid frr now).2.maxParticipants := by
  unfold joinAutoCreate
  cases hget : SMap.get s.rooms roomId with
  | some r =>
    exact ⟨h, capInvM_bound_of_get h hget⟩
  | none =>
    refine ⟨?_, by simp [createRoom, SMap.size]⟩
    simp only [createRoom]
    exact capInvM_set (capInvM_erase (capInvM_set h (by simp [SMap.size])))
      (by simp [SMap.size])

theorem capInv_joinReactivate {sr : RoomState × Room} (roomId : String)
    (h : CapInvM sr.1.rooms) (hb : sr.2.participants.size ≤ sr.2.maxParticipants) :
    CapInvM (joinReactivate sr roomId).1.rooms ∧
      (joinReactivate sr roomId).2.participants.size ≤
        (joinReactivate sr roomId).2.maxParticipants := by
  unfold joinReactivate
  by_cases hact : sr.2.isActive
  · simp [hact, h, hb]
  · simp only [hact, Bool.false_eq_true, if_false]
    exact ⟨capInvM_setIfPresent h (by simpa [SMap.size] using hb), by simpa [SMap.size] using hb⟩

theorem capInv_joinInsert {sr : RoomState × Room} (roomId userId dn : String)
    (md : Option Metadata) (fpid : String) (now : Int)
    (h : CapInvM sr.1.rooms) (hb : sr.2.participants.size ≤ sr.2.maxParticipants) :
    CapInvM (joinInsert sr roomId userId dn md fpid now).state.rooms := by
  unfold joinInsert
  by_cases hcap : sr.2.participants.size ≥ sr.2.maxParticipants
  · simpa [hcap] using h
  · simp only [hcap, if_false]
    cases hfind : (SMap.values sr.2.participants).find? (fun p => p.userId == userId) with
    | some p => simpa [hfind] using h
    | none =>
      simp only [hfind]
      apply capInvM_set h
      have hlt : sr.2.participants.size < sr.2.maxParticipants := Nat.lt_of_not_le hcap
      have := SMap.length_set_le sr.2.participants fpid
        { id := fpid, userId := userId, roomId := roomId, displayName := dn,
          isHidden := metaIsHidden md, joinedAt := now, lastSeen := now, metadata := md }
      simp only [SMap.size] at hlt ⊢
      omega

theorem capInv_joinRoom (s : RoomState) (roomId userId dn : String) (md : Option Metadata)
    (frid frr fpid : String) (now : Int) (h : CapInv s) :
    CapInv (joinRoom s roomId userId dn md frid frr fpid now).state := by
  unfold joinRoom CapInv
  have h1 := capInv_joinAutoCreate roomId frid frr now h
  have h2 := @capInv_joinReactivate (joinAutoCreate s roomId frid frr now) roomId h1.1 h1.2
  exact capInv_joinInsert roomId userId dn md fpid now h2.1 h2.2

theorem capInv_leaveRoom (s : RoomState) (roomId pid : String) (now : Int) (h : CapInv s) :
    CapInv (leaveRoom s roomId pid now).state := by
  unfold leaveRoom
  cases hget : SMap.get s.rooms roomId with
  | none => simpa [hget] using h
  | some room =>
    cases hp : SMap.get room.participants pid with
    | none => simpa [hget, hp] using h
    | some p =>
      simp only [hget, hp]
      apply capInvM_set h
      have h1 := SMap.length_erase_le room.participants pid
      have h2 := capInvM_bound_of_get h hget
      simp only [SMap.size] at h2 ⊢
      omega

theorem capInv_createTransport (s : RoomState) (roomId pid : String) (dir : Direction)
    (tid : String) (now : Int) (h : CapInv s) :
    CapInv (createTransport s roomId pid dir tid now).state := by
  unfold createTransport
  cases hget : SMap.get s.rooms roomId with
  | none => simpa [hget] using h
  | some room =>
    cases hp : SMap.get room.participants pid with
    | none => simpa [hget, hp] using h
    | some p =>
      cases hr : room.routerId with
      | none => simpa [hget, hp, hr] using h
      | some rid =>
        cases dir <;> simp only [hget, hp, hr] <;>
          exact capInv_setParticipantBoth _ _ _ h

theorem capInv_createProducer (s : RoomState) (roomId pid : String) (kind : MediaKind)
    (rtp : String) (ad : Option String) (reply : EngineProducerReply) (now : Int)
    (h : CapInv s) :
    CapInv (createProducer s roomId pid kind rtp ad reply now).state := by
  unfold createProducer
  cases hget : SMap.get s.rooms roomId with
  | none => simpa [hget] using h
  | some room =>
    cases hp : SMap.get room.participants pid with
    | none => simpa [hget, hp] using h
    | some p =>
      cases ht : p.sendTransport with
      | none => simpa [hget, hp, ht] using h
      | some t =>
        simp only [hget, hp, ht]
        exact capInv_setParticipantBoth _ _ _ h

theorem capInv_createConsumer (s : RoomState) (roomId pid prodId : String) (caps : String)
    (ad : Option String) (cc : Bool) (reply : EngineConsumerReply) (now : Int)
    (h : CapInv s) :
    CapInv (createConsumer s roomId pid prodId caps ad cc reply now).state := by
  unfold createConsumer
  cases hget : SMap.get s.rooms roomId with
  | none => simpa [hget] using h
  | some room =>
    cases hp : SMap.get room.participants pid with
    | none => simpa [hget, hp] using h
    | some p =>
      cases ht : p.recvTransport with
      | none => simpa [hget, hp, ht] using h
      | some t =>
        cases hr : room.routerId with
        | none => simpa [hget, hp, ht, hr] using h
        | some rid =>
          by_cases hcc : cc
          · simp only [hget, hp, ht, hr, hcc, Bool.not_true, Bool.false_eq_true, if_false]
            exact capInv_setParticipantBoth _ _ _ h
          · simpa [hget, hp, ht, hr, hcc] using h

theorem capInv_deleteRoom (s : RoomState) (roomId : String) (now : Int) (h : CapInv s) :
    CapInv (deleteRoom s roomId now).state := by
  unfold deleteRoom
  cases hget : SMap.get s.rooms roomId with
  | none => simpa [hget] using h
  | some room =>
    simp only [hget]
    have hfold : ∀ (pids : List String) (s0 : RoomState), CapInv s0 →
        CapInv (pids.foldl (fun acc pid => (leaveRoom acc roomId pid now).state) s0) := by
      intro pids
      induction pids with
      | nil => intro s0 h0; simpa using h0
      | cons pid rest ih =>
        intro s0 h0
        exact ih _ (capInv_leaveRoom s0 roomId pid now h0)
    exact capInvM_erase (hfold _ s h)

theorem capInv_cleanup (s : RoomState) (now idle : Int) (h : CapInv s) :
    CapInv (cleanupInactiveRooms s now idle) := by
  unfold cleanupInactiveRooms
  have hfold : ∀ (rids : List String) (s0 : RoomState), CapInv s0 →
      CapInv (rids.foldl (fun acc rid => (deleteRoom acc rid now).state) s0) := by
    intro rids
    induction rids with
    | nil => intro s0 h0; simpa using h0
    | cons rid rest ih =>
      intro s0 h0
      exact ih _ (capInv_deleteRoom s0 rid now h0)
  exact hfold _ s h

theorem capInv_applyOp (s : RoomState) (op : Op) (h : CapInv s) : CapInv (applyOp s op) := by
  cases op with
  | createRoomOp name desc maxP roomId routerId now =>
    exact capInv_createRoom s name desc maxP roomId routerId now h
  | joinRoomOp roomId userId dn md frid frr fpid now =>
    exact capInv_joinRoom s roomId userId dn md frid frr fpid now h
  | leaveRoomOp roomId pid now => exact capInv_leaveRoom s roomId pid now h
  | createTransportOp roomId pid dir tid now =>
    exact capInv_createTransport s roomId pid dir tid now h
  | createProducerOp roomId pid kind rtp ad reply now =>
    exact capInv_createProducer s roomId pid kind rtp ad reply now h
  | createConsumerOp roomId pid prodId caps ad cc reply now =>
    exact capInv_createConsumer s roomId pid prodId caps ad cc reply now h
  | deleteRoomOp roomId now => exact capInv_deleteRoom s roomId now h
  | cleanupOp now idle => exact capInv_cleanup s now idle h

/-! ## The claims -/

/-- C1: starting from the empty store, after every completed Entity Store
operation every room satisfies `participants.size <= maxParticipants`:
`joinRoom` inserts a new participant only when the size is strictly below the
capacity, and no other operation grows any room's participant map. -/
theorem capacity_invariant (ops : List Op) :
    CapInv (ops.foldl applyOp RoomState.init) := by
  have hstep : ∀ s : RoomState, CapInv s → CapInv (ops.foldl applyOp s) := by
    induction ops with
    | nil => intro s h; simpa using h
    | cons op rest ih =>
      intro s h
      exact ih _ (capInv_applyOp s op h)
  apply hstep
  intro e he
  simp [RoomState.init] at he

/-- C2 counterexample: in a capacity-1 room already containing alice, alice's
second `joinRoom` does NOT return the existing participant — the `RoomFull`
check (part_009 line 139) runs before the duplicate-participant check
(line 144), so the rejoin throws `RoomFull`. -/
theorem rejoin_at_capacity_fails :
    demoRoom1Alice.result =
      .ok { id := "p1", userId := "alice", roomId := "room1", displayName := "Alice",
            joinedAt := 0, lastSeen := 0 } ∧
    demoRoom1AliceAgain.result = .error .roomFull := by
  exact ⟨rfl, rfl⟩

/-- C2 (amended): a second `joinRoom` for a (room, user) pair already present
returns the existing participant unchanged, with the same identifier, and
leaves the room's participant map and the global participant map untouched —
provided the room's participant count is strictly below its capacity.  (At
capacity the rejoin instead fails with `RoomFull`, see the counterexample.) -/
theorem idempotent_join_below_capacity (s : RoomState) (roomId userId dn : String)
    (md : Option Metadata) (frid frr fpid : String) (now : Int) (room : Room)
    (p : Participant)
    (hroom : SMap.get s.rooms roomId = some room)
    (hcap : room.participants.size < room.maxParticipants)
    (hfind : (SMap.values room.participants).find? (fun q => q.userId == userId) = some p) :
    (joinRoom s roomId userId dn md frid frr fpid now).result = .ok p ∧
    (∃ room2 : Room,
      SMap.get (joinRoom s roomId userId dn md frid frr fpid now).state.rooms roomId
          = some room2 ∧
      room2.participants = room.participants) ∧
    (joinRoom s roomId userId dn md frid frr fpid now).state.participants = s.participants := by
  have hnotfull : ¬ room.participants.size ≥ room.maxParticipants := Nat.not_le.mpr hcap
  unfold joinRoom joinAutoCreate
  rw [hroom]
  unfold joinReactivate
  by_cases hact : room.isActive
  · simp only [hact, if_true]
    unfold joinInsert
    simp only [hnotfull, if_false, hfind]
    exact ⟨by simp, ⟨room, hroom, rfl⟩, by simp⟩
  · simp only [hact, Bool.false_eq_true, if_false]
    unfold joinInsert
    simp only [hnotfull, if_false, hfind]
    refine ⟨by simp, ⟨{ room with isActive := true }, ?_, rfl⟩, by simp⟩
    exact SMap.get_setIfPresent_self _ _ _ _ hroom

/-- C2 witness: alice rejoins the auto-created capacity-100 room and gets her
existing participant "p1" back. -/
theorem idempotent_join_below_capacity_witness :
    (joinRoom demoAlice "room1" "alice" "Alice2" none "frX" "frrX" "pX" 7).result =
      .ok { id := "p1", userId := "alice", roomId := "room1", displayName := "Alice",
            joinedAt := 0, lastSeen := 0 } :=
  (idempotent_join_below_capacity demoAlice "room1" "alice" "Alice2" none "frX" "frrX" "pX" 7
    _ _ rfl (by decide) rfl).1

/-- C5 (code bug): a duplicate `joinRoom` request handled within one second of
the original join DOES emit a second `participantJoined` broadcast: the
handler's "new join" test is the timestamp heuristic
`participant.joinedAt.getTime() > Date.now() - 1000` (index.ts line 859), which
is still true immediately after the first join, contradicting the comment
"Only notify other participants if this is a new join (not a duplicate)". -/
theorem duplicate_join_rebroadcast :
    joinDemo1.broadcasts =
      [BroadcastMsg.participantJoined "roomX"
        (getParticipantInfo
          { id := "p1", userId := "alice", roomId := "roomX",
            displayName := "Alice", joinedAt := 0, lastSeen := 0 }) "connA"] ∧
    joinDemo2.joined = joinDemo1.joined ∧
    joinDemo2.broadcasts = joinDemo1.broadcasts := by
  exact ⟨rfl, rfl, rfl⟩

/-- C3 counterexample: outside development mode, a webhook delivery failure
ABORTS `handleJoinRoom` even though the primary operation succeeded: the joined
participant "p1" is registered in the store, yet the handler returns
`DJANGO_WEBHOOK_ERROR` instead of its success response, because
`WebhookService.sendWebhook` rethrows (redis.ts line 495) and the handler does
not catch it (index.ts lines 848-855). -/
theorem webhook_failure_aborts_join :
    joinWebhookFailDemo.result = .error .djangoWebhookError ∧
    (getParticipant joinWebhookFailDemo.state "p1").isSome = true := by
  exact ⟨rfl, rfl⟩

/-- C3 (amended): a failure of the best-effort persistence (event-log) call
never changes the outcome of `createRoom` / `joinRoom` / `leaveRoom` — the
store, result and broadcasts are identical, only a warning is logged — but a
failure of the outbound webhook call outside development mode aborts each of
the three handlers with `DJANGO_WEBHOOK_ERROR` in place of its success
response.  (In development mode webhooks are skipped and cannot fail.) -/
theorem best_effort_policy :
    (∀ s name desc maxP roomId routerId now devMode webhookOk,
      (handleCreateRoom s name desc maxP roomId routerId now true devMode webhookOk).state =
        (handleCreateRoom s name desc maxP roomId routerId now false devMode webhookOk).state ∧
      (handleCreateRoom s name desc maxP roomId routerId now true devMode webhookOk).result =
        (handleCreateRoom s name desc maxP roomId routerId now false devMode webhookOk).result) ∧
    (∀ s cid cuid roomId dn md acc frid frr fpid now devMode webhookOk tB,
      (handleJoinRoom s cid cuid roomId dn md acc frid frr fpid now true devMode webhookOk tB).state =
        (handleJoinRoom s cid cuid roomId dn md acc frid frr fpid now false devMode webhookOk tB).state ∧
      (handleJoinRoom s cid cuid roomId dn md acc frid frr fpid now true devMode webhookOk tB).result =
        (handleJoinRoom s cid cuid roomId dn md acc frid frr fpid now false devMode webhookOk tB).result ∧
      (handleJoinRoom s cid cuid roomId dn md acc frid frr fpid now true devMode webhookOk tB).broadcasts =
        (handleJoinRoom s cid cuid roomId dn md acc frid frr fpid now false devMode webhookOk tB).broadcasts) ∧
    (∀ s cid cpid crid reqRoomId now devMode webhookOk,
      (handleLeaveRoom s cid cpid crid reqRoomId now true devMode webhookOk).state =
        (handleLeaveRoom s cid cpid crid reqRoomId now false devMode webhookOk).state ∧
      (handleLeaveRoom s cid cpid crid reqRoomId now true devMode webhookOk).result =
        (handleLeaveRoom s cid cpid crid reqRoomId now false devMode webhookOk).result ∧
      (handleLeaveRoom s cid cpid crid reqRoomId now true devMode webhookOk).broadcasts =
        (handleLeaveRoom s cid cpid crid reqRoomId now false devMode webhookOk).broadcasts) ∧
    (∀ s name desc maxP roomId routerId now dbOk,
      (handleCreateRoom s name desc maxP roomId routerId now dbOk false false).result =
        .error .djangoWebhookError) ∧
    (∀ s cid cuid roomId dn md frid frr fpid now dbOk tB p,
      (joinRoom s roomId cuid dn md frid frr fpid now).result = .ok p →
      (handleJoinRoom s cid cuid roomId dn md true frid frr fpid now dbOk false false tB).result =
        .error .djangoWebhookError) ∧
    (∀ s cid pid rid reqRoomId now dbOk p,
      getParticipant s pid = some p →
      (handleLeaveRoom s cid (some pid) (some rid) reqRoomId now dbOk false false).result =
        .error .djangoWebhookError) := by
  refine ⟨?_, ?_, ?_, ?_, ?_, ?_⟩
  · intro s name desc maxP roomId routerId now devMode webhookOk
    unfold handleCreateRoom
    cases hw : sendWebhookCall devMode webhookOk <;> simp [hw]
  · intro s cid cuid roomId dn md acc frid frr fpid now devMode webhookOk tB
    unfold handleJoinRoom
    cases acc with
    | false => simp
    | true =>
      simp only [Bool.not_true, Bool.false_eq_true, if_false]
      cases hj : (joinRoom s roomId cuid dn md frid frr fpid now).result with
      | error e => simp [hj]
      | ok participant =>
        simp only [hj]
        cases hw : sendWebhookCall devMode webhookOk with
        | error e => simp [hw]
        | ok u =>
          simp only [hw]
          cases hc : getRouterRtpCaps (joinRoom s roomId cuid dn md frid frr fpid now).state
              roomId <;> simp [hc]
  · intro s cid cpid crid reqRoomId now devMode webhookOk
    unfold handleLeaveRoom
    cases cpid with
    | none => cases crid <;> simp
    | some pid =>
      cases crid with
      | none => simp
      | some rid =>
        cases hp : getParticipant s pid with
        | none => simp [hp]
        | some p =>
          simp only [hp]
          cases hw : sendWebhookCall devMode webhookOk with
          | error e => simp [hw]
          | ok u =>
            simp only [hw]
            cases hl : (leaveRoom s reqRoomId pid now).result <;> simp [hl]
  · intro s name desc maxP roomId routerId now dbOk
    unfold handleCreateRoom
    simp [sendWebhookCall]
  · intro s cid cuid roomId dn md frid frr fpid now dbOk tB p hj
    unfold handleJoinRoom
    simp [hj, sendWebhookCall]
  · intro s cid pid rid reqRoomId now dbOk p hp
    unfold handleLeaveRoom
    simp [hp, sendWebhookCall]

/-- C3 witness: the leave-handler conjunct applied to the store where alice is
registered, outside development mode with a failing webhook. -/
theorem best_effort_policy_witness :
    (handleLeaveRoom demoAlice "connA" (some "p1") (some "room1") "room1" 5 true false false).result =
      .error .djangoWebhookError :=
  best_effort_policy.2.2.2.2.2 demoAlice "connA" "p1" "room1" "room1" 5 true _ rfl

/-- C8: joining a room id that is not in the store auto-creates and registers a
room under exactly that id with the derived name "Session Room <id>" and
capacity 100, leaves no residue under the temporary uuid key, and makes the
joiner the sole participant — non-hidden whenever the request metadata does not
carry `isHidden === true`. -/
theorem join_auto_creates_room (s : RoomState) (roomId userId dn : String)
    (md : Option Metadata) (frid frr fpid : String) (now : Int)
    (hnone : SMap.get s.rooms roomId = none)
    (hfresh : SMap.get s.rooms frid = none)
    (hne : frid ≠ roomId)
    (hmd : metaIsHidden md = false) :
    ∃ p : Participant, ∃ room : Room,
      (joinRoom s roomId userId dn md frid frr fpid now).result = .ok p ∧
      SMap.get (joinRoom s roomId userId dn md frid frr fpid now).state.rooms roomId =
        some room ∧
      room.id = roomId ∧
      room.name = "Session Room " ++ roomId ∧
      room.maxParticipants = 100 ∧
      room.participants = [(fpid, p)] ∧
      p.id = fpid ∧
      p.userId = userId ∧
      p.isHidden = false ∧
      SMap.get (joinRoom s roomId userId dn md frid frr fpid now).state.rooms frid = none := by
  unfold joinRoom joinAutoCreate
  rw [hnone]
  refine ⟨_, _, rfl, SMap.get_set_self _ _ _, rfl, rfl, rfl, rfl, rfl, rfl, hmd, ?_⟩
  show SMap.get (SMap.set (SMap.set (SMap.erase (SMap.set s.rooms frid _) frid) roomId _)
      roomId _) frid = none
  rw [SMap.get_set_ne _ _ hne, SMap.get_set_ne _ _ hne,
    SMap.erase_set_of_get_eq_none _ hfresh]
  exact hfresh

/-- C8 witness: alice joins the non-existent room "abc" and becomes the sole,
non-hidden participant of the auto-created room registered under "abc". -/
theorem join_auto_creates_room_witness :
    ∃ p : Participant, ∃ room : Room,
      (joinRoom RoomState.init "abc" "alice" "A" none "fr" "frr" "pid1" 0).result = .ok p ∧
      SMap.get (joinRoom RoomState.init "abc" "alice" "A" none "fr" "frr" "pid1" 0).state.rooms
        "abc" = some room ∧
      room.id = "abc" ∧
      room.name = "Session Room " ++ "abc" ∧
      room.maxParticipants = 100 ∧
      room.participants = [("pid1", p)] ∧
      p.id = "pid1" ∧
      p.userId = "alice" ∧
      p.isHidden = false ∧
      SMap.get (joinRoom RoomState.init "abc" "alice" "A" none "fr" "frr" "pid1" 0).state.rooms
        "fr" = none :=
  join_auto_creates_room RoomState.init "abc" "alice" "A" none "fr" "frr" "pid1" 0 rfl rfl
    (by decide) rfl

/-- C4: on a successful `joinRoom` handler run, a hidden (observer) joiner
receives the full roster of the room and no `participantJoined` broadcast is
emitted; a non-hidden joiner receives exactly the non-hidden participants. -/
theorem join_visibility (s : RoomState) (connId connUserId roomId dn : String)
    (md : Option Metadata) (frid frr fpid : String) (now : Int)
    (dbOk devMode webhookOk : Bool) (tB : Int) (o : JoinOutcome)
    (resp : JoinResponse) (P : Participant)
    (ho : o = handleJoinRoom s connId connUserId roomId dn md true frid frr fpid now dbOk
      devMode webhookOk tB)
    (hok : o.result = .ok resp) (hj : o.joined = some P) :
    (P.isHidden = true →
      resp.participants = (getRoomParticipants o.state roomId).map rosterEntry ∧
      o.broadcasts = []) ∧
    (P.isHidden = false →
      resp.participants =
        ((getRoomParticipants o.state roomId).filter (fun q => !q.isHidden)).map
          rosterEntry) := by
  cases hjr : (joinRoom s roomId connUserId dn md frid frr fpid now).result with
  | error e =>
    rw [ho] at hok
    simp [handleJoinRoom, hjr] at hok
  | ok participant =>
    cases hw : sendWebhookCall devMode webhookOk with
    | error e =>
      rw [ho] at hok
      simp [handleJoinRoom, hjr, hw] at hok
    | ok u =>
      cases hc : getRouterRtpCaps (joinRoom s roomId connUserId dn md frid frr fpid now).state
          roomId with
      | error e2 =>
        rw [ho] at hok
        simp [handleJoinRoom, hjr, hw, hc] at hok
      | ok caps =>
        have hstate : o.state = (joinRoom s roomId connUserId dn md frid frr fpid now).state := by
          rw [ho]; simp [handleJoinRoom, hjr, hw, hc]
        have hjoined : o.joined = some participant := by
          rw [ho]; simp [handleJoinRoom, hjr, hw, hc]
        have hP : P = participant := by
          rw [hjoined] at hj
          exact (Option.some.inj hj).symm
        subst hP
        have hres : o.result = .ok
            { roomId := roomId,
              participants := (if P.isHidden then
                  getRoomParticipants
                    (joinRoom s roomId connUserId dn md frid frr fpid now).state roomId
                else
                  (getRoomParticipants
                    (joinRoom s roomId connUserId dn md frid frr fpid now).state roomId).filter
                    (fun q => !q.isHidden)).map rosterEntry,
              routerRtpCapabilities := caps } := by
          rw [ho]; simp [handleJoinRoom, hjr, hw, hc]
        have hbc : o.broadcasts =
            (if P.joinedAt > tB - 1000 && !P.isHidden then
              [BroadcastMsg.participantJoined roomId (getParticipantInfo P) connId]
            else []) := by
          rw [ho]; simp [handleJoinRoom, hjr, hw, hc]
        rw [hres] at hok
        injection hok with hresp
        constructor
        · intro hh
          constructor
          · rw [← hresp, hstate]
            simp [hh]
          · rw [hbc]
            simp [hh]
        · intro hh
          rw [← hresp, hstate]
          simp [hh]

/-- C4 witness: hidden observer bob's join into the room already holding alice
produces no `participantJoined` broadcast (and his roster is the full one). -/
theorem join_visibility_witness : joinHiddenDemo.broadcasts = [] :=
  ((join_visibility demoAlice "connB" "bob" "room1" "Bob" (some { isHidden := some true })
    "fr2" "frr2" "p2" 10 true true true 10 joinHiddenDemo _ _ rfl rfl rfl).1 rfl).2

/-- Inversion of a successful `RoomService.createConsumer`: the stored consumer
is the engine reply marked paused, and the store update is exactly the insert
into the owning participant's consumer map. -/
theorem createConsumer_ok {s : RoomState} {roomId pid prodId caps : String}
    {ad : Option String} {cc : Bool} {reply : EngineConsumerReply} {now : Int}
    {ci : ConsumerInfo}
    (h : (createConsumer s roomId pid prodId caps ad cc reply now).result = .ok ci) :
    ci = { id := reply.id, producerId := prodId, kind := reply.kind,
           rtpParameters := reply.rtpParameters, appData := ad, paused := true,
           handlePaused := true } ∧
    ∃ room p, SMap.get s.rooms roomId = some room ∧
      SMap.get room.participants pid = some p ∧
      (createConsumer s roomId pid prodId caps ad cc reply now).state =
        setParticipantBoth s roomId pid
          { p with
            consumers := (SMap.set p.consumers reply.id
              { id := reply.id, producerId := prodId, kind := reply.kind,
                rtpParameters := reply.rtpParameters, appData := ad, paused := true,
                handlePaused := true }),
            lastSeen := now } := by
  unfold createConsumer at h ⊢
  cases hroom : SMap.get s.rooms roomId with
  | none => simp [hroom] at h
  | some room =>
    cases hp : SMap.get room.participants pid with
    | none => simp [hroom, hp] at h
    | some p =>
      cases ht : p.recvTransport with
      | none => simp [hroom, hp, ht] at h
      | some t =>
        cases hr : room.routerId with
        | none => simp [hroom, hp, ht, hr] at h
        | some rid =>
          cases cc with
          | false => simp [hroom, hp, ht, hr] at h
          | true =>
            simp only [hroom, hp, ht, hr, Bool.not_true, Bool.false_eq_true, if_false] at h ⊢
            refine ⟨(Except.ok.inj h).symm, room, p, rfl, hp, ?_⟩
            rw [ht]

/-- C6: every successful `subscribe` issues exactly one engine resume call —
for the consumer it just created (which the gateway starts paused,
mediasoup.ts line 255) — before replying, and its response reports
`paused: false`. -/
theorem subscribe_always_resumed (s : RoomState) (pid rid reqRoomId producerId caps : String)
    (cc : Bool) (reply : EngineConsumerReply) (now : Int) (o : SubscribeOutcome)
    (resp : SubscribeResponse)
    (ho : o = handleSubscribe s (some pid) (some rid) reqRoomId producerId caps cc reply now)
    (hglob : (SMap.get s.participants pid).isSome = true)
    (hok : o.result = .ok resp) :
    resp.paused = false ∧ o.resumeCalls = [resp.consumerId] := by
  obtain ⟨w, hw⟩ := Option.isSome_iff_exists.mp hglob
  cases hcr : (createConsumer s reqRoomId pid producerId caps (producerAppData s producerId)
      cc reply now).result with
  | error e =>
    rw [ho] at hok
    simp [handleSubscribe, hcr] at hok
  | ok ci =>
    obtain ⟨hci, room, p, hroom, hp, hstate⟩ := createConsumer_ok hcr
    have hpart : getParticipant (createConsumer s reqRoomId pid producerId caps
        (producerAppData s producerId) cc reply now).state pid =
        some { p with
          consumers := (SMap.set p.consumers reply.id
            { id := reply.id, producerId := producerId, kind := reply.kind,
              rtpParameters := reply.rtpParameters, appData := producerAppData s producerId,
              paused := true, handlePaused := true }),
          lastSeen := now } := by
      rw [hstate]
      unfold getParticipant setParticipantBoth
      exact SMap.get_setIfPresent_self _ _ _ _ hw
    have hcons : SMap.get (SMap.set p.consumers reply.id
        { id := reply.id, producerId := producerId, kind := reply.kind,
          rtpParameters := reply.rtpParameters, appData := producerAppData s producerId,
          paused := true, handlePaused := true }) ci.id =
        some { id := reply.id, producerId := producerId, kind := reply.kind,
               rtpParameters := reply.rtpParameters,
               appData := producerAppData s producerId,
               paused := true, handlePaused := true } := by
      rw [hci]
      exact SMap.get_set_self _ _ _
    have hres : o.result = .ok
        { consumerId := ci.id, producerId := ci.producerId, kind := ci.kind,
          rtpParameters := ci.rtpParameters, paused := false, appData := ci.appData } := by
      rw [ho]
      simp only [handleSubscribe, hcr, hpart, hcons]
      simp [hci]
    have hresume : o.resumeCalls = [ci.id] := by
      rw [ho]
      simp only [handleSubscribe, hcr, hpart, hcons]
      simp [hci]
    rw [hres] at hok
    injection hok with hresp
    constructor
    · rw [← hresp]
    · rw [hresume, ← hresp]

/-- C6 witness: alice's subscribe to "prod1" creates consumer "c1", which is
auto-resumed exactly once, and the response reports paused false. -/
theorem subscribe_always_resumed_witness :
    demoSubscribe.resumeCalls = ["c1"] ∧
    demoSubscribe.result = .ok
      { consumerId := "c1", producerId := "prod1", kind := .audio, rtpParameters := "rp1",
        paused := false, appData := none } :=
  ⟨(subscribe_always_resumed demoAliceProducer.state "p1" "room1" "room1" "prod1" "caps"
    true { id := "c1", kind := .audio, rtpParameters := "rp1" } 3 demoSubscribe _ rfl rfl
    rfl).2, rfl⟩

/-- C9: `leaveRoom` on a registered participant succeeds, issues exactly one
engine close call per owned handle (each producer, each consumer, and each held
transport, in that order), removes exactly that participant's entry from the
room map and the global participant map (all other entries are untouched), and
marks the room inactive — without deleting it — exactly when it became empty;
no other room changes. -/
theorem leaveRoom_teardown (s : RoomState) (roomId pid : String) (now : Int)
    (room : Room) (p : Participant)
    (hroom : SMap.get s.rooms roomId = some room)
    (hp : SMap.get room.participants pid = some p)
    (hnd : (room.participants.map Prod.fst).Nodup) :
    (leaveRoom s roomId pid now).result = .ok () ∧
    (leaveRoom s roomId pid now).calls =
      (SMap.values p.producers).map (fun pi => CloseCall.producer pi.id)
        ++ (SMap.values p.consumers).map (fun ci => CloseCall.consumer ci.id)
        ++ optTransportClose p.sendTransport ++ optTransportClose p.recvTransport ∧
    SMap.get (leaveRoom s roomId pid now).state.rooms roomId =
      some { room with
             participants := SMap.erase room.participants pid,
             updatedAt := now,
             isActive := if (SMap.erase room.participants pid).length = 0 then false
                         else room.isActive } ∧
    (∀ e : String × Participant,
      e ∈ SMap.erase room.participants pid ↔ e ∈ room.participants ∧ e.1 ≠ pid) ∧
    (leaveRoom s roomId pid now).state.participants = SMap.erase s.participants pid ∧
    (∀ rid, rid ≠ roomId →
      SMap.get (leaveRoom s roomId pid now).state.rooms rid = SMap.get s.rooms rid) := by
  simp only [leaveRoom, hroom, hp]
  refine ⟨by trivial, by trivial, SMap.get_set_self _ _ _, SMap.mem_erase_iff hnd,
    by trivial, ?_⟩
  intro rid hrid
  exact SMap.get_set_ne _ _ hrid

/-- C9 witness: alice (owning producer "prod1" and transports "t1"/"t2") leaves;
one close per handle is issued and the emptied room is kept, inactive. -/
theorem leaveRoom_teardown_witness :
    (leaveRoom demoAliceProducer.state "room1" "p1" 4).result = .ok () ∧
    (leaveRoom demoAliceProducer.state "room1" "p1" 4).calls =
      [CloseCall.producer "prod1", CloseCall.transport "t1", CloseCall.transport "t2"] ∧
    (leaveRoom demoAliceProducer.state "room1" "p1" 4).state.participants = [] := by
  obtain ⟨h1, h2, h3, h4, h5, h6⟩ :=
    leaveRoom_teardown demoAliceProducer.state "room1" "p1" 4 _ _ rfl rfl (by decide)
  exact ⟨h1, h2, h5⟩

/-- C10: creating a producer of kind audio (resp. video) sets the owning
participant's isAudioEnabled (resp. isVideoEnabled) flag, but unpublishing a
producer changes nothing of the participant except removing that producer: the
enabled flags keep their values (so they remain true after the last producer of
a kind is unpublished) and `getParticipantInfo` keeps reporting them. -/
theorem producer_flags_sticky :
    (∀ s roomId pid kind rtp ad reply now t room p,
      SMap.get s.rooms roomId = some room →
      SMap.get room.participants pid = some p →
      p.sendTransport = some t →
      (SMap.get s.participants pid).isSome = true →
      ∃ p2, getParticipant (createProducer s roomId pid kind rtp ad reply now).state pid =
          some p2 ∧
        p2.isAudioEnabled = (if kind = MediaKind.audio then true else p.isAudioEnabled) ∧
        p2.isVideoEnabled = (if kind = MediaKind.video then true else p.isVideoEnabled)) ∧
    (∀ s connId cpid crid reqRoomId prodId p prodInfo,
      getParticipant s cpid = some p →
      SMap.get p.producers prodId = some prodInfo →
      (handleUnpublish s connId (some cpid) (some crid) reqRoomId prodId).result = .ok true ∧
      (handleUnpublish s connId (some cpid) (some crid) reqRoomId prodId).closeCalls =
        [CloseCall.producer prodInfo.id] ∧
      getParticipant (handleUnpublish s connId (some cpid) (some crid) reqRoomId
          prodId).state cpid = some { p with producers := SMap.erase p.producers prodId } ∧
      (getParticipantInfo { p with producers := SMap.erase p.producers prodId }).isAudioEnabled =
        p.isAudioEnabled ∧
      (getParticipantInfo { p with producers := SMap.erase p.producers prodId }).isVideoEnabled =
        p.isVideoEnabled) := by
  constructor
  · intro s roomId pid kind rtp ad reply now t room p hroom hp hst hglob
    obtain ⟨w, hw⟩ := Option.isSome_iff_exists.mp hglob
    have hget2 : getParticipant (createProducer s roomId pid kind rtp ad reply now).state pid =
        some { p with
          producers := (SMap.set p.producers reply.id
            { id := reply.id, kind := kind, rtpParameters := rtp, appData := ad,
              paused := reply.paused }),
          lastSeen := now,
          isAudioEnabled := if kind = MediaKind.audio then true else p.isAudioEnabled,
          isVideoEnabled := if kind = MediaKind.video then true else p.isVideoEnabled } := by
      simp only [createProducer, hroom, hp, hst, getParticipant, setParticipantBoth]
      exact SMap.get_setIfPresent_self _ _ _ _ hw
    exact ⟨_, hget2, rfl, rfl⟩
  · intro s connId cpid crid reqRoomId prodId p prodInfo hp hprod
    have hw : SMap.get s.participants cpid = some p := hp
    simp only [handleUnpublish, hp, hprod]
    refine ⟨by trivial, by trivial, ?_, by trivial, by trivial⟩
    simp only [getParticipant, setParticipantBoth]
    exact SMap.get_setIfPresent_self _ _ _ _ hw

/-- C10 witness: after alice unpublishes her only audio producer, the handler
succeeds, closes "prod1", and her stored participant still reports
isAudioEnabled (true, as set by the publish). -/
theorem producer_flags_sticky_witness :
    demoAliceUnpublish.result = .ok true ∧
    demoAliceUnpublish.closeCalls = [CloseCall.producer "prod1"] := by
  obtain ⟨h1, h2, h3, h4, h5⟩ := producer_flags_sticky.2 demoAliceProducer.state "connA"
    "p1" "room1" "room1" "prod1" _ _ rfl rfl
  exact ⟨h1, h2⟩

/-- C7 (code bug): a registered connection whose socket stays OPEN but never
sends a pong is NEVER force-closed: each 30-second sweep refreshes
`connection.lastPing` when it sends the probe (index.ts line 478), so
`now - lastPing` is 30000 at every sweep and the 60000 ms timeout can never
elapse — after arbitrarily many sweeps the connection is still registered. -/
theorem heartbeat_never_times_out (t0 : Int) (cid : String) (n : Nat) :
    runSweeps t0 [{ id := cid, lastPing := t0, wsOpen := true }] n =
      [{ id := cid, lastPing := t0 + 30000 * (n : Int), wsOpen := true }] := by
  induction n with
  | zero => simp [runSweeps]
  | succ k ih =>
    have harith : t0 + 30000 * ((k : Int) + 1) - (t0 + 30000 * (k : Int)) = 30000 := by ring
    simp only [runSweeps, ih, pingSweep, sweepConn, List.filterMap]
    push_cast
    rw [harith]
    norm_num

end SFU
